import Mathlib

/-!
Wallet JSON-RPC server (`src/Wallet/WalletRpcServer.cpp`).

A shallow embedding of `Tools::wallet_rpc_server`: the request dispatcher
`processRequest` and its twelve handlers.

* The wallet engine (`IWalletLegacy`) and the node client (`INode`) are the
  server's collaborators.  The data the handlers read from them (balances,
  transaction records, transfer records, block counts) is held in `Wallet` and
  `Node`; the operations whose behaviour lives outside this file
  (`sendTransaction`, the completion wait, `storeWallet`, `reset`, the codecs of
  `Common/` and `CryptoNoteCore/`, the JSON envelope) are fields of `Env`.
* Every command issued to a collaborator is appended to `State.trace`, so that
  "operation X is never called" is a statement about the trace.
* C++ exceptions are values of `Exn`; a handler returns `Except Exn _` together
  with the state it leaves behind.
* Machine integers are `Nat`/`Int` with the conversions written out
  (`toUInt64`, `toInt64`, `std_abs`, `sub64`).
* A local declared without initialiser that the engine does not fill keeps
  indeterminate contents: `Env.uninitTransaction`, `Env.uninitAmount`.
-/

namespace Tools

/-! ## Machine integers -/

/-- Conversion of an integer value to `uint64_t` (reduction modulo `2^64`). -/
def toUInt64 (x : Int) : Nat := (x % 2 ^ 64).toNat

/-- Conversion of an integer value to `int64_t` (two-complement wrap). -/
def toInt64 (x : Int) : Int := (x + 2 ^ 63) % 2 ^ 64 - 2 ^ 63

/-- Embeds `std::abs` on `int64_t`: the negation is computed in 64-bit two-complement
arithmetic, so `std_abs (-2^63) = -2^63`. -/
def std_abs (x : Int) : Int := if x < 0 then toInt64 (-x) else x

/-- Subtraction of two `uint64_t` values. -/
def sub64 (a b : Nat) : Nat := toUInt64 ((a : Int) - (b : Int))

/-- Addition of two `size_t` values (64 bit). -/
def addSize (a b : Nat) : Nat := (a + b) % 2 ^ 64

/-- Membership in the range of `int64_t`. -/
def isInt64 (x : Int) : Prop := -(2 : Int) ^ 63 ≤ x ∧ x < 2 ^ 63

instance (x : Int) : Decidable (isInt64 x) := by unfold isInt64; infer_instance

/-! ## Data owned by the collaborators -/

/-- Embeds `Crypto::Hash`: 32 bytes. -/
abbrev Hash := List Nat

/-- Embeds `CryptoNote::BinaryArray`, also the bytes of a binary `std::string`. -/
abbrev BinaryArray := List Nat

/-- Embeds `sizeof(Crypto::Hash)`. -/
def sizeofHash : Nat := 32

/-- Modelled from the spec: `NULL_HASH` is declared outside this file; the spec
calls it the all-zero sentinel. -/
def NULL_HASH : Hash := List.replicate 32 0

/-- Modelled from the spec: `WALLET_LEGACY_INVALID_TRANSACTION_ID` is declared
in `IWalletLegacy.h`; it is the distinguished invalid handle, the largest
`size_t`. -/
def WALLET_LEGACY_INVALID_TRANSACTION_ID : Nat := 2 ^ 64 - 1

/-- Modelled from the spec: `WALLET_LEGACY_UNCONFIRMED_TRANSACTION_HEIGHT` is
declared in `IWalletLegacy.h`; it is the block height that means "unconfirmed",
the largest `uint32_t`. -/
def WALLET_LEGACY_UNCONFIRMED_TRANSACTION_HEIGHT : Nat := 2 ^ 32 - 1

/-- Modelled from the spec: `UNCONFIRMED_TRANSACTION_GLOBAL_OUTPUT_INDEX` is
declared in `ITransfersContainer.h`; the handlers compare block heights with it
as the "unconfirmed" sentinel, the largest `uint32_t`. -/
def UNCONFIRMED_TRANSACTION_GLOBAL_OUTPUT_INDEX : Nat := 2 ^ 32 - 1

/-- Embeds `CryptoNote::WalletLegacyTransactionState`. -/
inductive WalletLegacyTransactionState where
  | Active
  | Deleted
  | Sending
  | Cancelled
  | Failed
  deriving DecidableEq, Repr

/-- Embeds `CryptoNote::WalletLegacyTransfer`: `amount` is an `int64_t`. -/
structure WalletLegacyTransfer where
  address : String
  amount : Int
  deriving DecidableEq, Repr

/-- Embeds `CryptoNote::WalletLegacyTransaction`, the fields the server reads.
`totalAmount` is `int64_t`, `blockHeight` is `uint32_t`, `firstTransferId` and
`transferCount` are `size_t`, the others `uint64_t`; `extra` is a binary
`std::string`. -/
structure WalletLegacyTransaction where
  firstTransferId : Nat
  transferCount : Nat
  totalAmount : Int
  fee : Nat
  unlockTime : Nat
  hash : Hash
  blockHeight : Nat
  timestamp : Nat
  extra : BinaryArray
  state : WalletLegacyTransactionState
  deriving DecidableEq, Repr

/-- Modelled from the spec: the wallet engine (`m_wallet`) is declared in
`IWalletLegacy.h`.  The handlers read its balances, its address, its seed and
key material, its transaction records (counted, fetched by index) and its
transfer records (fetched by index). -/
structure Wallet where
  pendingBalance : Nat
  actualBalance : Nat
  address : String
  seed : Option String
  accountKeys : BinaryArray
  transactions : List WalletLegacyTransaction
  transfers : List WalletLegacyTransfer
  deriving DecidableEq, Repr

/-- Embeds `m_wallet.getTransactionCount()`. -/
def Wallet.getTransactionCount (w : Wallet) : Nat := w.transactions.length

/-- Embeds `m_wallet.getTransaction(id, txInfo)`: fills `txInfo` when the record
exists, leaves it as it was otherwise. -/
def Wallet.getTransaction (w : Wallet) (id : Nat) (txInfo : WalletLegacyTransaction) :
    WalletLegacyTransaction :=
  match w.transactions[id]? with
  | some t => t
  | none => txInfo

/-- Embeds `m_wallet.getTransfer(id, tr)`: fills `tr` when the record exists. -/
def Wallet.getTransfer (w : Wallet) (id : Nat) (tr : WalletLegacyTransfer) :
    WalletLegacyTransfer :=
  match w.transfers[id]? with
  | some t => t
  | none => tr

/-- The node client (`m_node`): `getKnownBlockCount()` answers with a count or
raises a `std::exception` (its `what()`); `getLastLocalBlockHeight()`. -/
structure Node where
  knownBlockCount : Except String Nat
  lastLocalBlockHeight : Nat

/-- Embeds `std::error_code`: it is "set" when `value` is not zero. -/
structure ErrorCode where
  value : Int
  message : String
  deriving DecidableEq, Repr

/-! ## Errors -/

/-- The error codes the server uses: the JSON-RPC ones of `Rpc/JsonRpc.h` and
the `WALLET_RPC_ERROR_CODE_*` ones of `WalletRpcServerErrorCodes.h`. -/
inductive Code where
  | errParseError
  | errInvalidRequest
  | errMethodNotFound
  | errInvalidParams
  | errInternalError
  | WALLET_RPC_ERROR_CODE_UNKNOWN_ERROR
  | WALLET_RPC_ERROR_CODE_WRONG_ADDRESS
  | WALLET_RPC_ERROR_CODE_DAEMON_IS_BUSY
  | WALLET_RPC_ERROR_CODE_GENERIC_TRANSFER_ERROR
  | WALLET_RPC_ERROR_CODE_WRONG_PAYMENT_ID
  deriving DecidableEq, Repr

/-- Embeds `JsonRpc::JsonRpcError`, built by one of its two constructors:
`JsonRpcError(code)` or `JsonRpcError(code, message)`. -/
inductive JsonRpcError where
  | ofCode (code : Code)
  | withMessage (code : Code) (message : String)
  deriving DecidableEq, Repr

/-- The code of an error. -/
def JsonRpcError.code : JsonRpcError → Code
  | .ofCode c => c
  | .withMessage c _ => c

/-- A C++ exception in flight: a `JsonRpcError`, or another `std::exception`
with its `what()` text. -/
inductive Exn where
  | jsonRpc (err : JsonRpcError)
  | std (what : String)
  deriving DecidableEq, Repr

/-! ## Wire schemas (`wallet_rpc::COMMAND_RPC_*`) -/

namespace wallet_rpc

/-- Embeds `transfer_destination`: `amount` is `uint64_t`. -/
structure transfer_destination where
  amount : Nat
  address : String
  deriving DecidableEq, Repr

/-- Embeds `COMMAND_RPC_GET_BALANCE::response`. -/
structure GetBalanceResponse where
  locked_amount : Nat
  available_balance : Nat
  deriving DecidableEq, Repr

/-- Embeds `COMMAND_RPC_TRANSFER::request`. -/
structure TransferRequest where
  destinations : List transfer_destination
  fee : Nat
  mixin : Nat
  unlock_time : Nat
  payment_id : String
  deriving DecidableEq, Repr

/-- Embeds `COMMAND_RPC_TRANSFER::response`. -/
structure TransferResponse where
  tx_hash : String
  deriving DecidableEq, Repr

/-- Embeds `COMMAND_RPC_STORE::response`. -/
structure StoreResponse where
  stored : Bool
  deriving DecidableEq, Repr

/-- Embeds `COMMAND_RPC_GET_PAYMENTS::request`. -/
structure GetPaymentsRequest where
  payment_id : String
  deriving DecidableEq, Repr

/-- Embeds `payment_details`; the numeric fields are `uint64_t`. -/
structure payment_details where
  tx_hash : String
  amount : Nat
  block_height : Nat
  unlock_time : Nat
  deriving DecidableEq, Repr

/-- Embeds `COMMAND_RPC_GET_PAYMENTS::response`. -/
structure GetPaymentsResponse where
  payments : List payment_details
  deriving DecidableEq, Repr

/-- Embeds `wallet_rpc::Transfer`; the numeric fields are `uint64_t`. -/
structure Transfer where
  time : Nat
  output : Bool
  transactionHash : String
  amount : Nat
  fee : Nat
  paymentId : String
  address : String
  blockIndex : Nat
  unlockTime : Nat
  confirmations : Nat
  deriving DecidableEq, Repr

/-- Embeds `COMMAND_RPC_GET_TRANSFERS::response`. -/
structure GetTransfersResponse where
  transfers : List Transfer
  deriving DecidableEq, Repr

/-- Embeds `COMMAND_RPC_GET_TRANSACTION::request`. -/
structure GetTransactionRequest where
  tx_hash : String
  deriving DecidableEq, Repr

/-- Embeds `COMMAND_RPC_GET_TRANSACTION::response`. -/
structure GetTransactionResponse where
  transaction_details : Transfer
  destinations : List transfer_destination
  deriving DecidableEq, Repr

/-- Embeds `COMMAND_RPC_GET_HEIGHT::response`. -/
structure GetHeightResponse where
  height : Nat
  deriving DecidableEq, Repr

/-- Embeds `COMMAND_RPC_GET_ADDRESS::response`. -/
structure GetAddressResponse where
  address : String
  deriving DecidableEq, Repr

/-- Embeds `COMMAND_RPC_QUERY_KEY::request`. -/
structure QueryKeyRequest where
  key_type : String
  deriving DecidableEq, Repr

/-- Embeds `COMMAND_RPC_QUERY_KEY::response`. -/
structure QueryKeyResponse where
  key : String
  deriving DecidableEq, Repr

/-- Embeds `COMMAND_RPC_GEN_PAYMENT_ID::response`. -/
structure GenPaymentIdResponse where
  payment_id : String
  deriving DecidableEq, Repr

end wallet_rpc

open wallet_rpc

/-! ## Server state and collaborators -/

/-- A command issued by the server to one of its collaborators. -/
inductive Call where
  | invokeHandler (method : String)
  | addObserver
  | removeObserver
  | sendTransaction (transfers : List WalletLegacyTransfer) (fee : Nat)
      (extra : BinaryArray) (mixin : Nat) (unlockTime : Nat)
  | wait (tx : Nat)
  | storeWallet (file : String)
  | reset
  | remoteSpawnStop
  deriving DecidableEq, Repr

/-- What a request can observe and change: the wallet engine, the node client
and the commands issued so far (oldest first). -/
structure State where
  wallet : Wallet
  node : Node
  trace : List Call

/-- Record a command. -/
def State.log (s : State) (c : Call) : State := { s with trace := s.trace ++ [c] }

/-- A JSON value in serialised form (the correlation `id`, the raw `params`). -/
structure JsonValue where
  raw : String
  deriving DecidableEq, Repr

/-- Embeds `JsonRpc::JsonRpcRequest` after `parseRequest`. -/
structure JsonRpcRequest where
  id : Option JsonValue
  method : String
  params : JsonValue
  deriving DecidableEq, Repr

/-- The operations of the collaborators whose code is outside this file. -/
structure Env where
  /-- Stands for `JsonRpcRequest::parseRequest`: the parsed envelope or the exception. -/
  parseRequest : String → Except Exn JsonRpcRequest
  /-- Stands for `JsonRpcRequest::loadParams` for the four non-empty request schemas. -/
  loadTransferParams : JsonValue → Option TransferRequest
  loadGetPaymentsParams : JsonValue → Option GetPaymentsRequest
  loadGetTransactionParams : JsonValue → Option GetTransactionRequest
  loadQueryKeyParams : JsonValue → Option QueryKeyRequest
  /-- Stands for `Common::podToHex` on a `Crypto::Hash`. -/
  podToHex : Hash → String
  /-- Stands for `Common::fromHex`: the decoded bytes, or `none` when it returns false. -/
  fromHex : String → Option BinaryArray
  /-- Stands for `CryptoNote::parsePaymentId`. -/
  parsePaymentId : String → Option Hash
  /-- Stands for `CryptoNote::setPaymentIdToTransactionExtraNonce`. -/
  setPaymentIdToTransactionExtraNonce : Hash → BinaryArray
  /-- Stands for `CryptoNote::addExtraNonceToTransactionExtra`: the new extra, or `none`
  when it returns false. -/
  addExtraNonceToTransactionExtra : BinaryArray → BinaryArray → Option BinaryArray
  /-- Stands for `CryptoNote::getPaymentIdFromTxExtra`. -/
  getPaymentIdFromTxExtra : BinaryArray → Option Hash
  /-- Stands for `IWalletLegacy::sendTransaction`: the handle or a `std::exception`, and
  the wallet afterwards. -/
  sendTransaction : Wallet → List WalletLegacyTransfer → Nat → BinaryArray → Nat → Nat →
    Except String Nat × Wallet
  /-- Stands for `SendCompleteResultObserver::wait`: the completion signal for a handle,
  and the wallet at that moment. -/
  wait : Wallet → Nat → ErrorCode × Wallet
  /-- Stands for `WalletHelper::storeWallet`: its boolean result or a `std::exception`. -/
  storeWallet : Wallet → String → Except String Bool
  /-- Stands for `IWalletLegacy::reset`. -/
  reset : Wallet → Except String Unit × Wallet
  /-- Stands for `Crypto::rand<Crypto::Hash>()`. -/
  randHash : Except String Hash
  /-- Stands for `Tools::Base58::encode_addr`. -/
  encode_addr : Nat → BinaryArray → String
  /-- Stands for `parameters::CRYPTONOTE_PUBLIC_ADDRESS_BASE58_PREFIX`. -/
  addressTag : Nat
  /-- Stands for `m_walletFilename`. -/
  walletFilename : String
  /-- The indeterminate contents of a local `WalletLegacyTransaction txInfo;`
  declared without initialiser, before the engine fills it for the given id. -/
  uninitTransaction : Nat → WalletLegacyTransaction
  /-- The indeterminate `amount` of a local `WalletLegacyTransfer` declared
  without initialiser (its `address` is the empty string), before the engine
  fills it for the given id. -/
  uninitAmount : Nat → Int

/-- Embeds `boost::iequals`: equal lengths and equal characters up to letter case. -/
def iequals (a b : String) : Bool :=
  decide (a.data.map Char.toUpper = b.data.map Char.toUpper)

/-! ## Handlers -/

/-- An error raised by a handler as `throw JsonRpc::JsonRpcError(code, message)`. -/
def raise {α : Type} (code : Code) (message : String) (s : State) : Except Exn α × State :=
  (.error (.jsonRpc (.withMessage code message)), s)

/-- Embeds `wallet_rpc_server::on_getbalance`. -/
def on_getbalance (_env : Env) (_req : Unit) (s : State) :
    Except Exn GetBalanceResponse × State :=
  (.ok { locked_amount := s.wallet.pendingBalance
         available_balance := s.wallet.actualBalance }, s)

/-- The list `transfers` that `on_transfer` builds from the request
(lines 174-181); the `uint64_t` amount is stored into an `int64_t`. -/
def transferList (req : TransferRequest) : List WalletLegacyTransfer :=
  req.destinations.map fun it => { address := it.address, amount := toInt64 it.amount }

/-- The `extra` bytes that `on_transfer` builds from the request's payment id
(lines 183-201), or the error it throws there. -/
def transferExtra (env : Env) (req : TransferRequest) : Except JsonRpcError BinaryArray :=
  let extra : BinaryArray := []
  if req.payment_id ≠ "" then
    let payment_id_str := req.payment_id
    match env.parsePaymentId payment_id_str with
    | none =>
      .error (.withMessage .WALLET_RPC_ERROR_CODE_WRONG_PAYMENT_ID
        ("Payment ID has invalid format: \"" ++ payment_id_str ++
          "\", expected 64-character string"))
    | some payment_id =>
      let extra_nonce := env.setPaymentIdToTransactionExtraNonce payment_id
      match env.addExtraNonceToTransactionExtra extra extra_nonce with
      | none =>
        .error (.withMessage .WALLET_RPC_ERROR_CODE_WRONG_PAYMENT_ID
          ("Something went wrong with payment_id. Please check its format: \"" ++
            payment_id_str ++ "\", expected 64-character string"))
      | some extra => .ok extra
  else .ok extra

/-- The `try` block of `on_transfer` (lines 207-222): the response, or the
`what()` of the `std::exception` that leaves the block.  The observer guard
registers the observer on entry and removes it once, by `removeObserver()` or
by its destructor. -/
def transferTry (env : Env) (req : TransferRequest) (transfers : List WalletLegacyTransfer)
    (extraString : BinaryArray) (s : State) : Except String TransferResponse × State :=
  let s := s.log .addObserver
  let s := s.log (.sendTransaction transfers req.fee extraString req.mixin req.unlock_time)
  match env.sendTransaction s.wallet transfers req.fee extraString req.mixin req.unlock_time with
  | (.error what, w) => (.error what, { s with wallet := w }.log .removeObserver)
  | (.ok tx, w) =>
    let s := { s with wallet := w }
    if tx = WALLET_LEGACY_INVALID_TRANSACTION_ID then
      (.error "Couldn't send transaction", s.log .removeObserver)
    else
      let s := s.log (.wait tx)
      match env.wait s.wallet tx with
      | (sendError, w) =>
        let s := { s with wallet := w }.log .removeObserver
        if sendError.value ≠ 0 then
          (.error sendError.message, s)
        else
          let txInfo := s.wallet.getTransaction tx (env.uninitTransaction tx)
          (.ok { tx_hash := env.podToHex txInfo.hash }, s)

/-- Embeds `wallet_rpc_server::on_transfer`. -/
def on_transfer (env : Env) (req : TransferRequest) (s : State) :
    Except Exn TransferResponse × State :=
  let transfers := transferList req
  match transferExtra env req with
  | .error err => (.error (.jsonRpc err), s)
  | .ok extra =>
    let extraString := extra
    match transferTry env req transfers extraString s with
    | (.error what, s) => raise .WALLET_RPC_ERROR_CODE_GENERIC_TRANSFER_ERROR what s
    | (.ok res, s) => (.ok res, s)

/-- Embeds `wallet_rpc_server::on_store`. -/
def on_store (env : Env) (_req : Unit) (s : State) : Except Exn StoreResponse × State :=
  let s := s.log (.storeWallet env.walletFilename)
  match env.storeWallet s.wallet env.walletFilename with
  | .ok stored => (.ok { stored := stored }, s)
  | .error what =>
    raise .WALLET_RPC_ERROR_CODE_UNKNOWN_ERROR ("Couldn't save wallet: " ++ what) s

/-- One iteration of the loop of `on_get_payments` (lines 265-285). -/
def paymentsStep (env : Env) (w : Wallet) (expectedPaymentId : Hash)
    (payments : List payment_details) (transactionNumber : Nat) : List payment_details :=
  let txInfo := w.getTransaction transactionNumber (env.uninitTransaction transactionNumber)
  if txInfo.state ≠ .Active ∨
      txInfo.blockHeight = WALLET_LEGACY_UNCONFIRMED_TRANSACTION_HEIGHT then payments
  else if txInfo.totalAmount < 0 then payments
  else
    let extraVec := txInfo.extra
    match env.getPaymentIdFromTxExtra extraVec with
    | some paymentId =>
      if paymentId = expectedPaymentId then
        payments ++ [{ tx_hash := env.podToHex txInfo.hash
                       amount := toUInt64 txInfo.totalAmount
                       block_height := txInfo.blockHeight
                       unlock_time := txInfo.unlockTime }]
      else payments
    | none => payments

/-- Embeds `wallet_rpc_server::on_get_payments`. -/
def on_get_payments (env : Env) (req : GetPaymentsRequest) (s : State) :
    Except Exn GetPaymentsResponse × State :=
  match env.fromHex req.payment_id with
  | none => raise .WALLET_RPC_ERROR_CODE_WRONG_PAYMENT_ID "Payment ID has invald format" s
  | some payment_id_blob =>
    if sizeofHash ≠ payment_id_blob.length then
      raise .WALLET_RPC_ERROR_CODE_WRONG_PAYMENT_ID "Payment ID has invalid size" s
    else
      let expectedPaymentId : Hash := payment_id_blob
      let transactionsCount := s.wallet.getTransactionCount
      (.ok { payments := (List.range transactionsCount).foldl
               (paymentsStep env s.wallet expectedPaymentId) [] }, s)

/-- The `wallet_rpc::Transfer` that `on_get_transfers` fills for a record
(lines 311-336). -/
def transferOf (env : Env) (w : Wallet) (bc_height : Nat) (txInfo : WalletLegacyTransaction) :
    Transfer :=
  let address :=
    if txInfo.totalAmount < 0 ∧ txInfo.transferCount > 0 then
      (w.getTransfer txInfo.firstTransferId
        ⟨"", env.uninitAmount txInfo.firstTransferId⟩).address
    else ""
  let extraVec := txInfo.extra
  { time := txInfo.timestamp
    output := decide (txInfo.totalAmount < 0)
    transactionHash := env.podToHex txInfo.hash
    amount := toUInt64 (std_abs txInfo.totalAmount)
    fee := txInfo.fee
    address := address
    blockIndex := txInfo.blockHeight
    unlockTime := txInfo.unlockTime
    confirmations :=
      if txInfo.blockHeight ≠ UNCONFIRMED_TRANSACTION_GLOBAL_OUTPUT_INDEX then
        sub64 bc_height txInfo.blockHeight
      else 0
    paymentId :=
      match env.getPaymentIdFromTxExtra extraVec with
      | some paymentId => if paymentId ≠ NULL_HASH then env.podToHex paymentId else ""
      | none => "" }

/-- The test that makes both scans skip a record (lines 307-309, 360-362). -/
def skipped (txInfo : WalletLegacyTransaction) : Bool :=
  decide (txInfo.state = .Cancelled ∨ txInfo.state = .Deleted ∨ txInfo.state = .Failed)

/-- One iteration of the loop of `on_get_transfers` (lines 305-338). -/
def transfersStep (env : Env) (w : Wallet) (bc_height : Nat) (transfers : List Transfer)
    (transactionNumber : Nat) : List Transfer :=
  let txInfo := w.getTransaction transactionNumber (env.uninitTransaction transactionNumber)
  if skipped txInfo then transfers
  else transfers ++ [transferOf env w bc_height txInfo]

/-- Embeds `wallet_rpc_server::on_get_transfers`. -/
def on_get_transfers (env : Env) (_req : Unit) (s : State) :
    Except Exn GetTransfersResponse × State :=
  let transactionsCount := s.wallet.getTransactionCount
  match s.node.knownBlockCount with
  | .error what =>
    raise .WALLET_RPC_ERROR_CODE_UNKNOWN_ERROR ("Failed to get blockchain height: " ++ what) s
  | .ok bc_height =>
    (.ok { transfers := (List.range transactionsCount).foldl
             (transfersStep env s.wallet bc_height) [] }, s)

/-- The destination loop of `on_get_transaction` (lines 395-402): `id` runs from
`firstTransferId` while `id < firstTransferId + transferCount`, the sum taken in
`size_t`; the local `txtr` is declared without initialiser in every round. -/
def destinationsOf (env : Env) (w : Wallet) (txInfo : WalletLegacyTransaction) :
    List transfer_destination :=
  let last := addSize txInfo.firstTransferId txInfo.transferCount
  (List.range' txInfo.firstTransferId (last - txInfo.firstTransferId)).map fun id =>
    let txtr := w.getTransfer id ⟨"", env.uninitAmount id⟩
    { amount := toUInt64 txtr.amount, address := txtr.address }

/-- The scan of `on_get_transaction` (lines 356-405) over the transaction
numbers still to visit: the response of the first match, or `none` when the loop
ends without one. -/
def transactionScan (env : Env) (w : Wallet) (bc_height : Nat) (tx_hash : String) :
    List Nat → Option GetTransactionResponse
  | [] => none
  | transactionNumber :: rest =>
    let txInfo := w.getTransaction transactionNumber (env.uninitTransaction transactionNumber)
    if skipped txInfo then transactionScan env w bc_height tx_hash rest
    else if iequals (env.podToHex txInfo.hash) tx_hash then
      let address :=
        if txInfo.totalAmount < 0 ∧ txInfo.transferCount > 0 then
          (w.getTransfer txInfo.firstTransferId
        ⟨"", env.uninitAmount txInfo.firstTransferId⟩).address
        else ""
      let extraVec := txInfo.extra
      let transfer : Transfer :=
        { time := txInfo.timestamp
          output := decide (txInfo.totalAmount < 0)
          transactionHash := env.podToHex txInfo.hash
          amount := toUInt64 (std_abs txInfo.totalAmount)
          fee := txInfo.fee
          address := address
          blockIndex := txInfo.blockHeight
          unlockTime := txInfo.unlockTime
          confirmations :=
            if txInfo.blockHeight ≠ UNCONFIRMED_TRANSACTION_GLOBAL_OUTPUT_INDEX then
              sub64 bc_height txInfo.blockHeight
            else 0
          paymentId :=
            match env.getPaymentIdFromTxExtra extraVec with
            | some paymentId => if paymentId ≠ NULL_HASH then env.podToHex paymentId else ""
            | none => "" }
      some { transaction_details := transfer, destinations := destinationsOf env w txInfo }
    else transactionScan env w bc_height tx_hash rest

/-- Embeds `wallet_rpc_server::on_get_transaction`. -/
def on_get_transaction (env : Env) (req : GetTransactionRequest) (s : State) :
    Except Exn GetTransactionResponse × State :=
  match s.node.knownBlockCount with
  | .error what =>
    raise .WALLET_RPC_ERROR_CODE_UNKNOWN_ERROR ("Failed to get blockchain height: " ++ what) s
  | .ok bc_height =>
    let transactionsCount := s.wallet.getTransactionCount
    match transactionScan env s.wallet bc_height req.tx_hash (List.range transactionsCount) with
    | some res => (.ok res, s)
    | none =>
      raise .WALLET_RPC_ERROR_CODE_UNKNOWN_ERROR
        ("Transaction with this hash not found: " ++ req.tx_hash) s

/-- Embeds `wallet_rpc_server::on_get_height`. -/
def on_get_height (_env : Env) (_req : Unit) (s : State) :
    Except Exn GetHeightResponse × State :=
  (.ok { height := s.node.lastLocalBlockHeight }, s)

/-- Embeds `wallet_rpc_server::on_get_address`. -/
def on_get_address (_env : Env) (_req : Unit) (s : State) :
    Except Exn GetAddressResponse × State :=
  (.ok { address := s.wallet.address }, s)

/-- Embeds `wallet_rpc_server::on_query_key`. -/
def on_query_key (env : Env) (req : QueryKeyRequest) (s : State) :
    Except Exn QueryKeyResponse × State :=
  if req.key_type ≠ "mnemonic" ∧ req.key_type ≠ "paperwallet" then
    raise .WALLET_RPC_ERROR_CODE_UNKNOWN_ERROR ("Unsupported key_type " ++ req.key_type) s
  else if req.key_type = "mnemonic" ∧ s.wallet.seed = none then
    raise .WALLET_RPC_ERROR_CODE_UNKNOWN_ERROR
      "The wallet is non-deterministic. Cannot display seed." s
  else
    let key := if req.key_type = "mnemonic" then s.wallet.seed.getD "" else ""
    if req.key_type = "paperwallet" then
      (.ok { key := env.encode_addr env.addressTag s.wallet.accountKeys }, s)
    else (.ok { key := key }, s)

/-- Embeds `wallet_rpc_server::on_reset`. -/
def on_reset (env : Env) (_req : Unit) (s : State) : Except Exn Unit × State :=
  let s := s.log .reset
  match env.reset s.wallet with
  | (.ok _, w) => (.ok (), { s with wallet := w })
  | (.error what, w) => (.error (.std what), { s with wallet := w })

/-- Embeds `wallet_rpc_server::send_stop_signal`: the stop task is handed to the
dispatcher (`remoteSpawn`), to run later. -/
def send_stop_signal (s : State) : State := s.log .remoteSpawnStop

/-- Embeds `wallet_rpc_server::on_stop_wallet`. -/
def on_stop_wallet (env : Env) (_req : Unit) (s : State) : Except Exn Unit × State :=
  let s := s.log (.storeWallet env.walletFilename)
  match env.storeWallet s.wallet env.walletFilename with
  | .error what =>
    raise .WALLET_RPC_ERROR_CODE_UNKNOWN_ERROR ("Couldn't save wallet: " ++ what) s
  | .ok _ => (.ok (), send_stop_signal s)

/-- Embeds `wallet_rpc_server::on_gen_paymentid`. -/
def on_gen_paymentid (env : Env) (_req : Unit) (s : State) :
    Except Exn GenPaymentIdResponse × State :=
  match env.randHash with
  | .error what =>
    raise .WALLET_RPC_ERROR_CODE_UNKNOWN_ERROR
      ("Internal error: can't generate Payment ID: " ++ what) s
  | .ok h => (.ok { payment_id := env.podToHex h }, s)

/-! ## Dispatcher -/

/-- The typed payload a handler hands back, one case per method. -/
inductive Result where
  | getbalance (r : GetBalanceResponse)
  | transfer (r : TransferResponse)
  | store (r : StoreResponse)
  | stop_wallet
  | get_payments (r : GetPaymentsResponse)
  | get_transfers (r : GetTransfersResponse)
  | get_transaction (r : GetTransactionResponse)
  | get_height (r : GetHeightResponse)
  | get_address (r : GetAddressResponse)
  | query_key (r : QueryKeyResponse)
  | reset
  | get_paymentid (r : GenPaymentIdResponse)
  deriving DecidableEq, Repr

/-- Modelled from the spec: `JsonRpc::JsonRpcResponse` is declared in
`Rpc/JsonRpc.h`; the response object holds the echoed id and a result or an
error. -/
structure JsonRpcResponse where
  id : Option JsonValue := none
  result : Option Result := none
  error : Option JsonRpcError := none
  deriving DecidableEq, Repr

/-- Embeds `JsonRpcResponse::setId`. -/
def JsonRpcResponse.setId (r : JsonRpcResponse) (id : Option JsonValue) : JsonRpcResponse :=
  { r with id := id }

/-- Embeds `JsonRpcResponse::setError`. -/
def JsonRpcResponse.setError (r : JsonRpcResponse) (err : JsonRpcError) : JsonRpcResponse :=
  { r with error := some err }

/-- Embeds `JsonRpcResponse::setResult`. -/
def JsonRpcResponse.setResult (r : JsonRpcResponse) (res : Result) : JsonRpcResponse :=
  { r with result := some res }

/-- Embeds `JsonRpc::JsonMemberMethod`: called with the request and the response
object of `processRequest`, it leaves the response object as it changed it and
either returns or throws. -/
abbrev JsonMemberMethod :=
  Env → JsonRpcRequest → JsonRpcResponse → State → Except Exn Unit × JsonRpcResponse × State

/-- Modelled from the spec: `makeMemberMethod` is defined in `Rpc/JsonRpc.h`.
It decodes `params` into the schema of the handler (`InvalidParams` on a
mismatch), invokes the handler and, on success, wraps its output as `result`;
an error raised by the handler propagates. -/
def makeMemberMethod {Req Res : Type} (load : Env → JsonValue → Option Req)
    (wrap : Res → Result) (handler : Env → Req → State → Except Exn Res × State) :
    JsonMemberMethod :=
  fun env jsReq jsRes s =>
    match load env jsReq.params with
    | none => (.error (.jsonRpc (.ofCode .errInvalidParams)), jsRes, s)
    | some req =>
      match handler env req s with
      | (.ok res, s) => (.ok (), jsRes.setResult (wrap res), s)
      | (.error e, s) => (.error e, jsRes, s)

/-- Decoding of an empty request schema (`EMPTY_STRUCT`). -/
def loadEmpty (_env : Env) (_params : JsonValue) : Option Unit := some ()

/-- The table `s_methods` of `processRequest` (lines 125-139). -/
def s_methods : List (String × JsonMemberMethod) :=
  [ ("getbalance", makeMemberMethod loadEmpty .getbalance on_getbalance),
    ("transfer", makeMemberMethod Env.loadTransferParams .transfer on_transfer),
    ("store", makeMemberMethod loadEmpty .store on_store),
    ("stop_wallet", makeMemberMethod loadEmpty (fun _ => .stop_wallet) on_stop_wallet),
    ("get_payments", makeMemberMethod Env.loadGetPaymentsParams .get_payments on_get_payments),
    ("get_transfers", makeMemberMethod loadEmpty .get_transfers on_get_transfers),
    ("get_transaction",
      makeMemberMethod Env.loadGetTransactionParams .get_transaction on_get_transaction),
    ("get_height", makeMemberMethod loadEmpty .get_height on_get_height),
    ("get_address", makeMemberMethod loadEmpty .get_address on_get_address),
    ("query_key", makeMemberMethod Env.loadQueryKeyParams .query_key on_query_key),
    ("reset", makeMemberMethod loadEmpty (fun _ => .reset) on_reset),
    ("get_paymentid", makeMemberMethod loadEmpty .get_paymentid on_gen_paymentid) ]

/-- The `try` block of `processRequest` (lines 122-145): how it ends, the
response object it leaves, and the state. -/
def processTry (env : Env) (body : String) (jsonResponse : JsonRpcResponse) (s : State) :
    Except Exn Unit × JsonRpcResponse × State :=
  match env.parseRequest body with
  | .error e => (.error e, jsonResponse, s)
  | .ok jsonRequest =>
    let jsonResponse := jsonResponse.setId jsonRequest.id
    match s_methods.lookup jsonRequest.method with
    | none => (.error (.jsonRpc (.ofCode .errMethodNotFound)), jsonResponse, s)
    | some method => method env jsonRequest jsonResponse (s.log (.invokeHandler jsonRequest.method))

/-- Embeds `wallet_rpc_server::processRequest`: the response object whose serialisation
becomes the body of the HTTP response, and the state afterwards. -/
def processRequest (env : Env) (body : String) (s : State) : JsonRpcResponse × State :=
  match processTry env body {} s with
  | (.ok _, jsonResponse, s) => (jsonResponse, s)
  | (.error (.jsonRpc err), jsonResponse, s) => (jsonResponse.setError err, s)
  | (.error (.std what), jsonResponse, s) =>
    (jsonResponse.setError (.withMessage .WALLET_RPC_ERROR_CODE_UNKNOWN_ERROR what), s)

/-! ## A concrete set of collaborators, for examples -/

/-- The hexadecimal digit of a value below 16. -/
def hexDigit (n : Nat) : Char := "0123456789abcdef".data.getD n '0'

/-- Modelled from the spec: `Common::podToHex` is defined in
`Common/StringTools`; the textual encoding of a hash is two lower-case
hexadecimal digits per byte. -/
def podToHexModel (h : Hash) : String :=
  String.mk (h.flatMap fun b => [hexDigit (b / 16 % 16), hexDigit (b % 16)])

/-- The value of a hexadecimal digit. -/
def hexValue (c : Char) : Option Nat :=
  if '0' ≤ c ∧ c ≤ '9' then some (c.toNat - 48)
  else if 'a' ≤ c ∧ c ≤ 'f' then some (c.toNat - 87)
  else if 'A' ≤ c ∧ c ≤ 'F' then some (c.toNat - 55)
  else none

/-- Decoding of a list of hexadecimal digits, two per byte. -/
def fromHexChars : List Char → Option BinaryArray
  | [] => some []
  | [_] => none
  | a :: b :: rest =>
    match hexValue a, hexValue b, fromHexChars rest with
    | some x, some y, some r => some ((x * 16 + y) :: r)
    | _, _, _ => none

/-- Modelled from the spec: `Common::fromHex` is defined in
`Common/StringTools`; it fails on an odd length or a character that is no
hexadecimal digit. -/
def fromHexModel (text : String) : Option BinaryArray := fromHexChars text.data

/-- Modelled from the spec: `CryptoNote::parsePaymentId` is defined in
`CryptoNoteCore`; it accepts exactly the hex of 32 bytes (64 characters). -/
def parsePaymentIdModel (text : String) : Option Hash :=
  match fromHexModel text with
  | some bytes => if bytes.length = 32 then some bytes else none
  | none => none

/-- Modelled from the spec: the payment-id codec is defined in `CryptoNoteCore`;
the identifier is wrapped in a nonce sub-field tagged as a payment id. -/
def setPaymentIdToTransactionExtraNonceModel (h : Hash) : BinaryArray := 0 :: h

/-- Modelled from the spec: the nonce is appended to the extra as a tagged,
length-prefixed field; a nonce longer than 255 bytes is refused. -/
def addExtraNonceToTransactionExtraModel (extra nonce : BinaryArray) : Option BinaryArray :=
  if nonce.length > 255 then none else some (extra ++ 2 :: nonce.length :: nonce)

/-- Modelled from the spec: decoding finds the nonce field and the identifier
in it; anything else is "not present". -/
def getPaymentIdFromTxExtraModel (extra : BinaryArray) : Option Hash :=
  match extra with
  | 2 :: 33 :: 0 :: h => if h.length = 32 then some h else none
  | _ => none

/-- A wallet engine with no transactions. -/
def emptyWallet : Wallet :=
  { pendingBalance := 100, actualBalance := 900, address := "addr", seed := none,
    accountKeys := [], transactions := [], transfers := [] }

/-- Collaborators for examples: the codecs above; an envelope reader that takes
the body as the method name with id `1` (the empty body does not parse); a
wallet engine that accepts every send, appending a record in state `Sending`
with the hash `ab..ab` and the transfers of the send, handing out the index of
that record, completing it without error, and persisting without error. -/
def sampleEnv : Env :=
  { parseRequest := fun body =>
      if body = "" then .error (.jsonRpc (.ofCode .errParseError))
      else .ok { id := some ⟨"1"⟩, method := body, params := ⟨""⟩ }
    loadTransferParams := fun _ => none
    loadGetPaymentsParams := fun _ => none
    loadGetTransactionParams := fun _ => none
    loadQueryKeyParams := fun _ => none
    podToHex := podToHexModel
    fromHex := fromHexModel
    parsePaymentId := parsePaymentIdModel
    setPaymentIdToTransactionExtraNonce := setPaymentIdToTransactionExtraNonceModel
    addExtraNonceToTransactionExtra := addExtraNonceToTransactionExtraModel
    getPaymentIdFromTxExtra := getPaymentIdFromTxExtraModel
    sendTransaction := fun w transfers fee extra _ unlockTime =>
      (.ok w.transactions.length,
        { w with
          transactions := w.transactions ++
            [{ firstTransferId := w.transfers.length, transferCount := transfers.length,
               totalAmount := -((transfers.map (·.amount)).sum + fee), fee := fee,
               unlockTime := unlockTime, hash := List.replicate 32 171,
               blockHeight := WALLET_LEGACY_UNCONFIRMED_TRANSACTION_HEIGHT, timestamp := 0,
               extra := extra, state := .Sending }]
          transfers := w.transfers ++ transfers })
    wait := fun w _ => (⟨0, ""⟩, w)
    storeWallet := fun _ _ => .ok true
    reset := fun w => (.ok (), w)
    randHash := .ok (List.replicate 32 7)
    encode_addr := fun _ _ => "addr"
    addressTag := 0
    walletFilename := "wallet.bin"
    uninitTransaction := fun _ => ⟨0, 0, 0, 0, 0, [], 0, 0, [], .Active⟩
    uninitAmount := fun _ => 0 }

/-- A state with the empty wallet, a node that knows 5 blocks, and no command
issued yet. -/
def sampleState : State :=
  { wallet := emptyWallet, node := { knownBlockCount := .ok 5, lastLocalBlockHeight := 4 },
    trace := [] }

/-- A transfer of 5 units to `addr1` with fee 1 and no payment id. -/
def sampleTransfer : TransferRequest :=
  { destinations := [⟨5, "addr1"⟩], fee := 1, mixin := 0, unlock_time := 0, payment_id := "" }

/-- A transfer of 5 units to `addr1` with the payment id `xyz`. -/
def invalidIdTransfer : TransferRequest :=
  { destinations := [⟨5, "addr1"⟩], fee := 1, mixin := 0, unlock_time := 0,
    payment_id := "xyz" }

/-- A transfer of 5 units whose only destination has the empty address. -/
def emptyAddressTransfer : TransferRequest :=
  { destinations := [⟨5, ""⟩], fee := 1, mixin := 0, unlock_time := 0, payment_id := "" }

/-- The test of `on_get_payments`: the record is `Active`, confirmed, incoming,
and its extra decodes to the expected payment id. -/
def isPayment (env : Env) (expectedPaymentId : Hash) (t : WalletLegacyTransaction) : Bool :=
  decide (t.state = .Active ∧ t.blockHeight ≠ WALLET_LEGACY_UNCONFIRMED_TRANSACTION_HEIGHT ∧
    0 ≤ t.totalAmount ∧ env.getPaymentIdFromTxExtra t.extra = some expectedPaymentId)

/-- The test of `on_get_transaction`: the record is not skipped and its hash
hex equals the requested string up to letter case. -/
def isRequested (env : Env) (tx_hash : String) (t : WalletLegacyTransaction) : Bool :=
  !skipped t && iequals (env.podToHex t.hash) tx_hash

/-- The extra bytes that carry the payment id `07..07`. -/
def sampleExtra : BinaryArray := 2 :: 33 :: 0 :: List.replicate 32 7

/-- A wallet with five records: an incoming confirmed payment with the payment
id `07..07`; an outgoing confirmed transaction with two transfers and hash
`ab..ab`; an unconfirmed incoming one; a failed one; an incoming confirmed one
without payment id and with the smallest `int64_t` as total amount. -/
def historyWallet : Wallet :=
  { pendingBalance := 10, actualBalance := 57, address := "addr", seed := none,
    accountKeys := []
    transactions :=
      [ { firstTransferId := 2 ^ 64 - 1, transferCount := 0, totalAmount := 50, fee := 0,
          unlockTime := 0, hash := List.replicate 32 1, blockHeight := 3, timestamp := 1000,
          extra := sampleExtra, state := .Active },
        { firstTransferId := 0, transferCount := 2, totalAmount := -30, fee := 1,
          unlockTime := 0, hash := List.replicate 32 171, blockHeight := 4, timestamp := 2000,
          extra := sampleExtra, state := .Active },
        { firstTransferId := 2 ^ 64 - 1, transferCount := 0, totalAmount := 10, fee := 0,
          unlockTime := 0, hash := List.replicate 32 3,
          blockHeight := WALLET_LEGACY_UNCONFIRMED_TRANSACTION_HEIGHT, timestamp := 3000,
          extra := sampleExtra, state := .Active },
        { firstTransferId := 2 ^ 64 - 1, transferCount := 0, totalAmount := 5, fee := 0,
          unlockTime := 0, hash := List.replicate 32 4, blockHeight := 2, timestamp := 500,
          extra := sampleExtra, state := .Failed },
        { firstTransferId := 2 ^ 64 - 1, transferCount := 0, totalAmount := -2 ^ 63, fee := 0,
          unlockTime := 7, hash := List.replicate 32 5, blockHeight := 2, timestamp := 400,
          extra := [], state := .Active } ]
    transfers := [⟨"dest1", 20⟩, ⟨"dest2", 9⟩] }

/-- The wallet above with a node that knows 6 blocks. -/
def historyState : State :=
  { wallet := historyWallet, node := { knownBlockCount := .ok 6, lastLocalBlockHeight := 5 },
    trace := [] }

/-- The request for the payments with the id `07..07`. -/
def samplePayments : GetPaymentsRequest :=
  { payment_id := "0707070707070707070707070707070707070707070707070707070707070707" }

/-- The request for the transaction `ab..ab`, written in upper case. -/
def sampleLookup : GetTransactionRequest :=
  { tx_hash := "ABABABABABABABABABABABABABABABABABABABABABABABABABABABABABABABAB" }

/-- A wallet whose only record is confirmed at height 10, with a node that
knows 5 blocks. -/
def behindState : State :=
  { wallet :=
      { emptyWallet with
        transactions :=
          [ { firstTransferId := 2 ^ 64 - 1, transferCount := 0, totalAmount := 50, fee := 0,
              unlockTime := 0, hash := List.replicate 32 1, blockHeight := 10,
              timestamp := 1000, extra := [], state := .Active } ] }
    node := { knownBlockCount := .ok 5, lastLocalBlockHeight := 4 }
    trace := [] }

/-- The wallet with five records, with a node that cannot report its block
count. -/
def nodeDownState : State :=
  { wallet := historyWallet
    node := { knownBlockCount := .error "node down", lastLocalBlockHeight := 5 }
    trace := [] }

/-- The sample collaborators with a wallet file that cannot be written. -/
def failingStoreEnv : Env :=
  { sampleEnv with storeWallet := fun _ _ => .error "disk full" }

/-! ## Dispatch -/

theorem lookup_none_of_not_mem {β : Type} (m : String) :
    ∀ l : List (String × β), m ∉ l.map Prod.fst → l.lookup m = none
  | [], _ => rfl
  | (k, v) :: l, h => by
    have hk : ¬ m = k := fun e => h (by simp [e])
    have hl : m ∉ l.map Prod.fst := fun e => h (by simp only [List.map_cons]; exact List.mem_cons_of_mem _ e)
    have hb : (m == k) = false := by simpa using hk
    simp only [List.lookup, hb]
    exact lookup_none_of_not_mem m l hl

theorem lookup_mem {β : Type} (m : String) (v : β) :
    ∀ l : List (String × β), l.lookup m = some v → (m, v) ∈ l
  | [], h => by simp [List.lookup] at h
  | (k, w) :: l, h => by
    by_cases hk : m = k
    · subst hk
      simp [List.lookup] at h
      simp [h]
    · have hb : (m == k) = false := by simpa using hk
      simp only [List.lookup, hb] at h
      exact List.mem_cons_of_mem _ (lookup_mem m v l h)

theorem s_methods_keys :
    s_methods.map Prod.fst =
      ["getbalance", "transfer", "store", "stop_wallet", "get_payments", "get_transfers",
        "get_transaction", "get_height", "get_address", "query_key", "reset",
        "get_paymentid"] := rfl

/-- C1: a request whose envelope parses and whose method is none of the twelve
registered names gets the response that echoes its id and carries the
`MethodNotFound` error and no result; no handler is invoked and the wallet, the
node and the trace of issued commands are as before. -/
theorem processRequest_unknown_method (env : Env) (body : String) (s : State)
    (jsonRequest : JsonRpcRequest)
    (hparse : env.parseRequest body = .ok jsonRequest)
    (hmethod : jsonRequest.method ∉
      ["getbalance", "transfer", "store", "stop_wallet", "get_payments", "get_transfers",
        "get_transaction", "get_height", "get_address", "query_key", "reset",
        "get_paymentid"]) :
    processRequest env body s =
      ({ id := jsonRequest.id, result := none, error := some (.ofCode .errMethodNotFound) }, s) := by
  simp [processRequest, processTry, hparse, lookup_none_of_not_mem _ _ (s_methods_keys ▸ hmethod),
    JsonRpcResponse.setId, JsonRpcResponse.setError]

theorem processRequest_unknown_method_witness :
    processRequest sampleEnv "get_balance" sampleState =
      ({ id := some ⟨"1"⟩, result := none, error := some (.ofCode .errMethodNotFound) },
        sampleState) :=
  processRequest_unknown_method sampleEnv "get_balance" sampleState
    { id := some ⟨"1"⟩, method := "get_balance", params := ⟨""⟩ } rfl (by decide)

theorem makeMemberMethod_id {Req Res : Type} (load : Env → JsonValue → Option Req)
    (wrap : Res → Result) (handler : Env → Req → State → Except Exn Res × State)
    (env : Env) (jsReq : JsonRpcRequest) (jsRes : JsonRpcResponse) (s : State) :
    (makeMemberMethod load wrap handler env jsReq jsRes s).2.1.id = jsRes.id := by
  unfold makeMemberMethod
  cases load env jsReq.params with
  | none => rfl
  | some req =>
    simp only
    rcases hh : handler env req s with ⟨r, s1⟩
    cases r <;> rfl

theorem s_methods_id (m : String) (method : JsonMemberMethod) (hm : (m, method) ∈ s_methods)
    (env : Env) (jsReq : JsonRpcRequest) (jsRes : JsonRpcResponse) (s : State) :
    (method env jsReq jsRes s).2.1.id = jsRes.id := by
  simp only [s_methods, List.mem_cons, Prod.mk.injEq, List.mem_singleton, List.not_mem_nil,
    or_false] at hm
  rcases hm with h | h | h | h | h | h | h | h | h | h | h | h <;>
    (rw [h.2]; exact makeMemberMethod_id _ _ _ env jsReq jsRes s)

/-- C2: for every request whose envelope parses, the response produced by
`processRequest` carries the id of the request, however the dispatch ends: the
handler returns, the method is unknown, the handler raises a `JsonRpcError`, or
the handler raises another exception. -/
theorem processRequest_echoes_id (env : Env) (body : String) (s : State)
    (jsonRequest : JsonRpcRequest)
    (hparse : env.parseRequest body = .ok jsonRequest) :
    (processRequest env body s).1.id = jsonRequest.id := by
  have htry : (processTry env body {} s).2.1.id = jsonRequest.id := by
    simp only [processTry, hparse]
    cases hl : s_methods.lookup jsonRequest.method with
    | none => rfl
    | some method =>
      simp only
      rw [s_methods_id _ method (lookup_mem _ _ _ hl)]
      rfl
  unfold processRequest
  rcases hp : processTry env body {} s with ⟨r, jsonResponse, s1⟩
  rw [hp] at htry
  cases r with
  | ok u => exact htry
  | error e => cases e <;> exact htry

theorem processRequest_echoes_id_witness :
    (processRequest sampleEnv "getbalance" sampleState).1.id = some ⟨"1"⟩ :=
  processRequest_echoes_id sampleEnv "getbalance" sampleState
    { id := some ⟨"1"⟩, method := "getbalance", params := ⟨""⟩ } rfl

/-! ## Transfer -/

/-- C3: a transfer request whose payment id is not empty and is rejected by
`parsePaymentId` fails with the `InvalidPaymentId` error
(`WALLET_RPC_ERROR_CODE_WRONG_PAYMENT_ID`, with the message of line 191); the
state is the one before the call: no command was added to the trace, so no
observer was registered and `sendTransaction` was not called, and the wallet is
unchanged. -/
theorem on_transfer_invalid_payment_id (env : Env) (req : TransferRequest) (s : State)
    (hne : req.payment_id ≠ "")
    (hrej : env.parsePaymentId req.payment_id = none) :
    on_transfer env req s =
        (.error (.jsonRpc (.withMessage .WALLET_RPC_ERROR_CODE_WRONG_PAYMENT_ID
          ("Payment ID has invalid format: \"" ++ req.payment_id ++
            "\", expected 64-character string"))), s) ∧
      (on_transfer env req s).2.trace = s.trace ∧
      (on_transfer env req s).2.wallet = s.wallet := by
  have h : on_transfer env req s =
      (.error (.jsonRpc (.withMessage .WALLET_RPC_ERROR_CODE_WRONG_PAYMENT_ID
        ("Payment ID has invalid format: \"" ++ req.payment_id ++
          "\", expected 64-character string"))), s) := by
    simp [on_transfer, transferExtra, hne, hrej]
  exact ⟨h, by rw [h], by rw [h]⟩

theorem on_transfer_invalid_payment_id_witness :
    on_transfer sampleEnv invalidIdTransfer sampleState =
        (.error (.jsonRpc (.withMessage .WALLET_RPC_ERROR_CODE_WRONG_PAYMENT_ID
          "Payment ID has invalid format: \"xyz\", expected 64-character string")),
          sampleState) ∧
      (on_transfer sampleEnv invalidIdTransfer sampleState).2.trace = [] ∧
      (on_transfer sampleEnv invalidIdTransfer sampleState).2.wallet = emptyWallet :=
  on_transfer_invalid_payment_id sampleEnv invalidIdTransfer sampleState (by decide)
    (by decide)

/-- C4: for a transfer request that passes the Building step (its `extra` is
built), with `sent` the answer of the engine to `sendTransaction`:
`on_transfer` succeeds exactly when `sent` is a handle other than
`WALLET_LEGACY_INVALID_TRANSACTION_ID` and the completion signal for it carries
no error, and then, the engine holding a record under that handle, `tx_hash` is
the hex of the hash of that record; when `sent` is the invalid handle it fails
with the send-failure error, message "Couldn't send transaction" (raised under
the code `WALLET_RPC_ERROR_CODE_GENERIC_TRANSFER_ERROR`), and the commands
issued are only the observer registration, the send and the observer removal,
no wait; when the completion signal carries an error it fails with
`WALLET_RPC_ERROR_CODE_GENERIC_TRANSFER_ERROR` and the message of that error. -/
theorem on_transfer_outcome (env : Env) (req : TransferRequest) (s : State)
    (extra : BinaryArray) (hbuild : transferExtra env req = .ok extra) :
    let send := Call.sendTransaction (transferList req) req.fee extra req.mixin req.unlock_time
    let sent := env.sendTransaction s.wallet (transferList req) req.fee extra req.mixin
      req.unlock_time
    ((∃ res s1, on_transfer env req s = (.ok res, s1)) ↔
        ∃ tx, sent.1 = .ok tx ∧ tx ≠ WALLET_LEGACY_INVALID_TRANSACTION_ID ∧
          (env.wait sent.2 tx).1.value = 0) ∧
      (∀ tx txInfo, sent.1 = .ok tx → tx ≠ WALLET_LEGACY_INVALID_TRANSACTION_ID →
        (env.wait sent.2 tx).1.value = 0 →
        (env.wait sent.2 tx).2.transactions[tx]? = some txInfo →
        on_transfer env req s =
          (.ok { tx_hash := env.podToHex txInfo.hash },
            { wallet := (env.wait sent.2 tx).2, node := s.node,
              trace := s.trace ++ [.addObserver, send, .wait tx, .removeObserver] })) ∧
      (sent.1 = .ok WALLET_LEGACY_INVALID_TRANSACTION_ID →
        on_transfer env req s =
          (.error (.jsonRpc (.withMessage .WALLET_RPC_ERROR_CODE_GENERIC_TRANSFER_ERROR
              "Couldn't send transaction")),
            { wallet := sent.2, node := s.node,
              trace := s.trace ++ [.addObserver, send, .removeObserver] })) ∧
      (∀ tx, sent.1 = .ok tx → tx ≠ WALLET_LEGACY_INVALID_TRANSACTION_ID →
        (env.wait sent.2 tx).1.value ≠ 0 →
        on_transfer env req s =
          (.error (.jsonRpc (.withMessage .WALLET_RPC_ERROR_CODE_GENERIC_TRANSFER_ERROR
              (env.wait sent.2 tx).1.message)),
            { wallet := (env.wait sent.2 tx).2, node := s.node,
              trace := s.trace ++ [.addObserver, send, .wait tx, .removeObserver] })) := by
  intro send sent
  have hsent : env.sendTransaction s.wallet (transferList req) req.fee extra req.mixin
      req.unlock_time = sent := rfl
  rcases hs : sent with ⟨r, w1⟩
  rw [hs] at hsent
  cases r with
  | error what =>
    have h : on_transfer env req s =
        (.error (.jsonRpc (.withMessage .WALLET_RPC_ERROR_CODE_GENERIC_TRANSFER_ERROR what)),
          { wallet := w1, node := s.node,
            trace := s.trace ++ [.addObserver, send, .removeObserver] }) := by
      simp [on_transfer, hbuild, transferTry, State.log, hsent, raise, send]
    refine ⟨?_, ?_, ?_, ?_⟩
    · rw [h]; simp
    · intro tx txInfo htx; simp at htx
    · intro htx; simp at htx
    · intro tx htx; simp at htx
  | ok tx =>
    by_cases hinv : tx = WALLET_LEGACY_INVALID_TRANSACTION_ID
    · have h : on_transfer env req s =
          (.error (.jsonRpc (.withMessage .WALLET_RPC_ERROR_CODE_GENERIC_TRANSFER_ERROR
              "Couldn't send transaction")),
            { wallet := w1, node := s.node,
              trace := s.trace ++ [.addObserver, send, .removeObserver] }) := by
        simp [on_transfer, hbuild, transferTry, State.log, hsent, raise, send, hinv]
      refine ⟨?_, ?_, ?_, ?_⟩
      · rw [h]; simp; intro h1; exact absurd hinv h1
      · intro tx1 txInfo htx hne; simp at htx; exact absurd (htx.symm.trans hinv) hne
      · intro _; exact h
      · intro tx1 htx hne; simp at htx; exact absurd (htx.symm.trans hinv) hne
    · rcases hw : env.wait w1 tx with ⟨sendError, w2⟩
      by_cases herr : sendError.value = 0
      · have h : on_transfer env req s =
            (.ok { tx_hash :=
                    env.podToHex (w2.getTransaction tx (env.uninitTransaction tx)).hash },
              { wallet := w2, node := s.node,
                trace := s.trace ++ [.addObserver, send, .wait tx, .removeObserver] }) := by
          simp [on_transfer, hbuild, transferTry, State.log, hsent, raise, send, hinv, hw, herr]
        refine ⟨?_, ?_, ?_, ?_⟩
        · rw [h]; simp; exact ⟨hinv, by rw [hw]; exact herr⟩
        · intro tx1 txInfo htx _ _ hrec
          simp at htx; subst htx
          rw [hw] at hrec
          simp only at hrec
          rw [h]
          simp only [hw, Wallet.getTransaction, hrec]
        · intro htx; simp at htx; exact absurd htx hinv
        · intro tx1 htx _ hne
          simp at htx; subst htx; rw [hw] at hne; exact absurd herr hne
      · have h : on_transfer env req s =
            (.error (.jsonRpc (.withMessage .WALLET_RPC_ERROR_CODE_GENERIC_TRANSFER_ERROR
                sendError.message)),
              { wallet := w2, node := s.node,
                trace := s.trace ++ [.addObserver, send, .wait tx, .removeObserver] }) := by
          simp [on_transfer, hbuild, transferTry, State.log, hsent, raise, send, hinv, hw, herr]
        refine ⟨?_, ?_, ?_, ?_⟩
        · rw [h]; simp; intro _; rw [hw]; exact herr
        · intro tx1 txInfo htx _ h0
          simp at htx; subst htx; rw [hw] at h0; exact absurd h0 herr
        · intro htx; simp at htx; exact absurd htx hinv
        · intro tx1 htx _ _
          simp at htx; subst htx; simp only [hw]; exact h

theorem on_transfer_outcome_witness :
    ∃ s1, on_transfer sampleEnv sampleTransfer sampleState =
        (.ok { tx_hash := "abababababababababababababababababababababababababababababababab" }, s1) ∧
      s1.trace = [.addObserver, .sendTransaction [⟨"addr1", 5⟩] 1 [] 0 0, .wait 0,
        .removeObserver] :=
  ⟨_, (on_transfer_outcome sampleEnv sampleTransfer sampleState [] rfl).2.1 0
    { firstTransferId := 0, transferCount := 1, totalAmount := -6, fee := 1, unlockTime := 0,
      hash := List.replicate 32 171,
      blockHeight := WALLET_LEGACY_UNCONFIRMED_TRANSACTION_HEIGHT, timestamp := 0, extra := [],
      state := .Sending } rfl (by decide) rfl rfl, rfl⟩

/-! ### Destinations are not validated -/

/-- C5, as stated, fails: a request whose destination has an empty address is
not rejected; `on_transfer` passes it to `sendTransaction` and, the engine
accepting it, succeeds. -/
theorem on_transfer_empty_address_sent :
    ∃ res s1, on_transfer sampleEnv emptyAddressTransfer sampleState = (.ok res, s1) ∧
      s1.trace = [.addObserver, .sendTransaction [⟨"", 5⟩] 1 [] 0 0, .wait 0,
        .removeObserver] :=
  ⟨_, _, rfl, rfl⟩

/-- The amounts of a request below `2^63` are stored unchanged in `transfers`. -/
theorem transferList_eq (req : TransferRequest)
    (hamount : ∀ d ∈ req.destinations, d.amount < 2 ^ 63) :
    transferList req = req.destinations.map fun d => ⟨d.address, (d.amount : Int)⟩ := by
  unfold transferList
  apply List.map_congr_left
  intro d hd
  have h := hamount d hd
  have : toInt64 (d.amount : Int) = d.amount := by
    unfold toInt64
    omega
  simp [this]

/-- C5, amended: the Building step does not inspect the destinations.  Every
request whose payment id is empty or accepted (so that `extra` is built), with
amounts below `2^63`, is passed to `sendTransaction` once, with the destinations
in the order of the request and the same addresses and amounts, an empty
address included; the only other commands are the observer registration before
it and the wait and the observer removal after it. -/
theorem on_transfer_passes_destinations (env : Env) (req : TransferRequest) (s : State)
    (extra : BinaryArray) (hbuild : transferExtra env req = .ok extra)
    (hamount : ∀ d ∈ req.destinations, d.amount < 2 ^ 63) :
    ∃ rest, (on_transfer env req s).2.trace =
        s.trace ++ [.addObserver,
          .sendTransaction (req.destinations.map fun d => ⟨d.address, (d.amount : Int)⟩)
            req.fee extra req.mixin req.unlock_time] ++ rest ∧
      ∀ c ∈ rest, c = .removeObserver ∨ ∃ tx, c = .wait tx := by
  rw [← transferList_eq req hamount]
  rcases hs : env.sendTransaction s.wallet (transferList req) req.fee extra req.mixin
    req.unlock_time with ⟨r, w1⟩
  cases r with
  | error what =>
    refine ⟨[.removeObserver], ?_, by simp⟩
    simp [on_transfer, hbuild, transferTry, State.log, hs, raise]
  | ok tx =>
    by_cases hinv : tx = WALLET_LEGACY_INVALID_TRANSACTION_ID
    · refine ⟨[.removeObserver], ?_, by simp⟩
      simp [on_transfer, hbuild, transferTry, State.log, hs, raise, hinv]
    · rcases hw : env.wait w1 tx with ⟨sendError, w2⟩
      refine ⟨[.wait tx, .removeObserver], ?_, by simp⟩
      by_cases herr : sendError.value = 0 <;>
        simp [on_transfer, hbuild, transferTry, State.log, hs, raise, hinv, hw, herr]

theorem on_transfer_passes_destinations_witness :
    ∃ rest, (on_transfer sampleEnv emptyAddressTransfer sampleState).2.trace =
        sampleState.trace ++ [.addObserver,
          .sendTransaction (emptyAddressTransfer.destinations.map fun d =>
              ⟨d.address, (d.amount : Int)⟩)
            emptyAddressTransfer.fee [] emptyAddressTransfer.mixin
            emptyAddressTransfer.unlock_time] ++ rest ∧
      ∀ c ∈ rest, c = .removeObserver ∨ ∃ tx, c = .wait tx :=
  on_transfer_passes_destinations sampleEnv emptyAddressTransfer sampleState [] rfl
    (by decide)

/-! ## Scans over the transaction records -/

/-- Fetching the records number `0 .. count - 1` yields the list of records. -/
theorem map_getTransaction_range (w : Wallet) (d : Nat → WalletLegacyTransaction) :
    (List.range w.getTransactionCount).map (fun i => w.getTransaction i (d i)) =
      w.transactions := by
  apply List.ext_getElem?
  intro i
  by_cases hi : i < w.transactions.length
  · simp [Wallet.getTransactionCount, Wallet.getTransaction, List.getElem?_range, hi,
      List.getElem?_eq_getElem]
  · simp [Wallet.getTransactionCount, List.getElem?_eq_none, Nat.le_of_not_lt hi]

/-- A loop that appends the projection of the records that pass a test computes
a filter followed by a map. -/
theorem foldl_append_filter_map {α β : Type} (keep : α → Bool) (proj : α → β)
    (step : List β → α → List β)
    (hkeep : ∀ acc a, keep a = true → step acc a = acc ++ [proj a])
    (hskip : ∀ acc a, keep a = false → step acc a = acc) :
    ∀ (l : List α) (acc : List β), l.foldl step acc = acc ++ (l.filter keep).map proj
  | [], acc => by simp
  | a :: l, acc => by
    cases hk : keep a
    · simp [List.foldl, hskip acc a hk, hk, foldl_append_filter_map keep proj step hkeep hskip l]
    · simp [List.foldl, hkeep acc a hk, hk, foldl_append_filter_map keep proj step hkeep hskip l]

/-- The loop over transaction numbers is a loop over the records. -/
theorem foldl_range_records {β : Type} (w : Wallet) (d : Nat → WalletLegacyTransaction)
    (step : β → WalletLegacyTransaction → β) (init : β) :
    (List.range w.getTransactionCount).foldl (fun acc i => step acc (w.getTransaction i (d i)))
        init = w.transactions.foldl step init := by
  conv_rhs => rw [← map_getTransaction_range w d]
  rw [List.foldl_map]

theorem toUInt64_of_nonneg (x : Int) (h0 : 0 ≤ x) (h : isInt64 x) : toUInt64 x = x.toNat := by
  unfold toUInt64
  unfold isInt64 at h
  congr 1
  omega

/-- C6: for a requested payment id that is the hex of 32 bytes, and records
whose total amount is in the range of `int64_t`, `on_get_payments` returns, in
scan order, exactly the projections (hash hex, amount, block height, unlock
time) of the records that are `Active`, not at the unconfirmed sentinel height,
of non-negative total amount, and whose extra decodes to the requested id. -/
theorem on_get_payments_eq (env : Env) (req : GetPaymentsRequest) (s : State)
    (expected : BinaryArray)
    (hhex : env.fromHex req.payment_id = some expected)
    (hsize : expected.length = 32)
    (hrange : ∀ t ∈ s.wallet.transactions, isInt64 t.totalAmount) :
    on_get_payments env req s =
      (.ok ⟨List.map
          (fun t => { tx_hash := env.podToHex t.hash, amount := t.totalAmount.toNat,
                      block_height := t.blockHeight, unlock_time := t.unlockTime })
          (s.wallet.transactions.filter fun t =>
            decide (t.state = .Active ∧
              t.blockHeight ≠ WALLET_LEGACY_UNCONFIRMED_TRANSACTION_HEIGHT ∧
              0 ≤ t.totalAmount ∧ env.getPaymentIdFromTxExtra t.extra = some expected))⟩, s) := by
  have hstep : (List.range s.wallet.getTransactionCount).foldl
      (paymentsStep env s.wallet expected) [] =
      s.wallet.transactions.foldl (fun payments txInfo =>
        if isPayment env expected txInfo then
          payments ++ [{ tx_hash := env.podToHex txInfo.hash
                         amount := toUInt64 txInfo.totalAmount
                         block_height := txInfo.blockHeight
                         unlock_time := txInfo.unlockTime }]
        else payments) [] := by
    rw [← foldl_range_records s.wallet env.uninitTransaction]
    congr 1
    funext payments i
    simp only [paymentsStep, isPayment]
    generalize s.wallet.getTransaction i (env.uninitTransaction i) = t
    by_cases hp : env.getPaymentIdFromTxExtra t.extra = some expected
    · by_cases h1 : t.state = .Active <;>
        by_cases h2 : t.blockHeight = WALLET_LEGACY_UNCONFIRMED_TRANSACTION_HEIGHT <;>
        by_cases h3 : t.totalAmount < 0 <;>
        simp [hp, h1, h2, h3, not_le.mpr, not_lt.mp]
    · have hfalse : ¬ (t.state = .Active ∧
          t.blockHeight ≠ WALLET_LEGACY_UNCONFIRMED_TRANSACTION_HEIGHT ∧
          0 ≤ t.totalAmount ∧ env.getPaymentIdFromTxExtra t.extra = some expected) :=
        fun h => hp h.2.2.2
      have hdec := decide_eq_false hfalse
      simp only [hdec, Bool.false_eq_true, ↓reduceIte]
      split
      · rfl
      · split
        · rfl
        · split
          · rename_i pid hpid
            have : ¬ pid = expected := fun e => hp (by rw [hpid, e])
            simp [this]
          · rfl
  have hlist : List.map
      (fun t => ({ tx_hash := env.podToHex t.hash, amount := toUInt64 t.totalAmount,
                   block_height := t.blockHeight, unlock_time := t.unlockTime } : payment_details))
      (s.wallet.transactions.filter (isPayment env expected)) =
      List.map
        (fun t => { tx_hash := env.podToHex t.hash, amount := t.totalAmount.toNat,
                    block_height := t.blockHeight, unlock_time := t.unlockTime })
        (s.wallet.transactions.filter (isPayment env expected)) := by
    apply List.map_congr_left
    intro t ht
    have hmem := (List.mem_filter.mp ht)
    have hp : 0 ≤ t.totalAmount := by
      have := hmem.2
      simp only [isPayment, decide_eq_true_eq] at this
      exact this.2.2.1
    rw [toUInt64_of_nonneg _ hp (hrange t hmem.1)]
  simp only [on_get_payments, hhex, sizeofHash, hsize, hstep]
  rw [foldl_append_filter_map (isPayment env expected)
    (fun t => ({ tx_hash := env.podToHex t.hash, amount := toUInt64 t.totalAmount,
                 block_height := t.blockHeight, unlock_time := t.unlockTime } : payment_details))]
  · simp only [List.nil_append, ne_eq, not_true_eq_false, ↓reduceIte]
    rw [hlist]
    rfl
  · intro acc a h; simp [h]
  · intro acc a h; simp [h]

theorem on_get_payments_eq_witness :
    on_get_payments sampleEnv samplePayments historyState =
      (.ok ⟨[{ tx_hash := "0101010101010101010101010101010101010101010101010101010101010101",
               amount := 50, block_height := 3, unlock_time := 0 }]⟩, historyState) :=
  (on_get_payments_eq sampleEnv samplePayments historyState (List.replicate 32 7) rfl rfl
    (by decide)).trans rfl

/-- What `on_get_transfers` returns when the node reports `C` blocks: the
projection of every record that is not skipped, in scan order. -/
theorem on_get_transfers_eq (env : Env) (s : State) (C : Nat)
    (hC : s.node.knownBlockCount = .ok C) :
    on_get_transfers env () s =
      (.ok ⟨(s.wallet.transactions.filter fun t => !skipped t).map
        (transferOf env s.wallet C)⟩, s) := by
  have hstep : (List.range s.wallet.getTransactionCount).foldl
      (transfersStep env s.wallet C) [] =
      s.wallet.transactions.foldl (fun transfers txInfo =>
        if skipped txInfo then transfers
        else transfers ++ [transferOf env s.wallet C txInfo]) [] := by
    rw [← foldl_range_records s.wallet env.uninitTransaction]
    rfl
  simp only [on_get_transfers, hC, hstep]
  rw [foldl_append_filter_map (fun t => !skipped t) (transferOf env s.wallet C)]
  · rfl
  · intro acc a h; simp at h; simp [h]
  · intro acc a h; simp at h; simp [h]

/-- The scan of `on_get_transaction` over a list of transaction numbers finds
the first requested record among those fetched. -/
theorem transactionScan_eq (env : Env) (w : Wallet) (C : Nat) (tx_hash : String) :
    ∀ idxs : List Nat, transactionScan env w C tx_hash idxs =
      ((idxs.map fun i => w.getTransaction i (env.uninitTransaction i)).find?
          (isRequested env tx_hash)).map
        fun t => ⟨transferOf env w C t, destinationsOf env w t⟩
  | [] => rfl
  | i :: idxs => by
    simp only [transactionScan, List.map_cons, List.find?_cons, isRequested]
    cases hs : skipped (w.getTransaction i (env.uninitTransaction i))
    · cases hi : iequals (env.podToHex (w.getTransaction i (env.uninitTransaction i)).hash) tx_hash
      · simp only [Bool.false_eq_true, ↓reduceIte, Bool.not_false, Bool.and_false]
        exact transactionScan_eq env w C tx_hash idxs
      · simp only [Bool.false_eq_true, ↓reduceIte, Bool.not_false, Bool.and_self, Option.map_some']
        rfl
    · simp only [↓reduceIte, Bool.not_true, Bool.false_and]
      exact transactionScan_eq env w C tx_hash idxs

/-- What `on_get_transaction` returns when the node reports `C` blocks. -/
theorem on_get_transaction_eq (env : Env) (req : GetTransactionRequest) (s : State) (C : Nat)
    (hC : s.node.knownBlockCount = .ok C) :
    on_get_transaction env req s =
      match s.wallet.transactions.find? (isRequested env req.tx_hash) with
      | some t => (.ok ⟨transferOf env s.wallet C t, destinationsOf env s.wallet t⟩, s)
      | none =>
        raise .WALLET_RPC_ERROR_CODE_UNKNOWN_ERROR
          ("Transaction with this hash not found: " ++ req.tx_hash) s := by
  simp only [on_get_transaction, hC, transactionScan_eq, map_getTransaction_range]
  cases s.wallet.transactions.find? (isRequested env req.tx_hash) <;> rfl

theorem toUInt64_std_abs (x : Int) (h : isInt64 x) : toUInt64 (std_abs x) = x.natAbs := by
  unfold isInt64 at h
  unfold toUInt64 std_abs toInt64
  split <;> omega

/-- C7: when the node reports a block count, every record that
`on_get_transfers` projects (the records not skipped, in scan order) and the
record that `on_get_transaction` projects (the first one requested), with total
amount `A` in the range of `int64_t`, has its `output` flag true exactly when
`A < 0` and its `amount` equal to the absolute value of `A`. -/
theorem transfer_output_and_amount (env : Env) (req : GetTransactionRequest) (s : State)
    (C : Nat) (hC : s.node.knownBlockCount = .ok C)
    (hrange : ∀ t ∈ s.wallet.transactions, isInt64 t.totalAmount) :
    (∃ out, on_get_transfers env () s = (.ok ⟨out⟩, s) ∧
        List.Forall₂
          (fun t tr => (tr.output = true ↔ t.totalAmount < 0) ∧ tr.amount = t.totalAmount.natAbs)
          (s.wallet.transactions.filter fun t => !skipped t) out) ∧
      ∀ t, s.wallet.transactions.find? (isRequested env req.tx_hash) = some t →
        ∃ res, on_get_transaction env req s = (.ok res, s) ∧
          (res.transaction_details.output = true ↔ t.totalAmount < 0) ∧
          res.transaction_details.amount = t.totalAmount.natAbs := by
  constructor
  · refine ⟨_, on_get_transfers_eq env s C hC, ?_⟩
    rw [List.forall₂_map_right_iff, List.forall₂_same]
    intro t ht
    exact ⟨by simp [transferOf],
      by simp only [transferOf]; exact toUInt64_std_abs _ (hrange t (List.mem_filter.mp ht).1)⟩
  · intro t ht
    refine ⟨_, by rw [on_get_transaction_eq env req s C hC, ht], by simp [transferOf], ?_⟩
    simp only [transferOf]
    exact toUInt64_std_abs _ (hrange t (List.mem_of_find?_eq_some ht))

theorem transfer_output_and_amount_witness :
    (∃ out, on_get_transfers sampleEnv () historyState = (.ok ⟨out⟩, historyState) ∧
        List.Forall₂
          (fun t tr => (tr.output = true ↔ t.totalAmount < 0) ∧ tr.amount = t.totalAmount.natAbs)
          (historyState.wallet.transactions.filter fun t => !skipped t) out) ∧
      ∀ t, historyState.wallet.transactions.find? (isRequested sampleEnv sampleLookup.tx_hash) =
          some t →
        ∃ res, on_get_transaction sampleEnv sampleLookup historyState = (.ok res, historyState) ∧
          (res.transaction_details.output = true ↔ t.totalAmount < 0) ∧
          res.transaction_details.amount = t.totalAmount.natAbs :=
  transfer_output_and_amount sampleEnv sampleLookup historyState 6 rfl (by decide)

/-! ### Confirmations -/

/-- C8, as stated, fails: for a record confirmed at height `H = 10` while the
node reports `C = 5` blocks, the projected confirmations are `2^64 - 5`, the
64-bit unsigned difference, and not `C - H`. -/
theorem confirmations_wrap :
    ∃ tr, on_get_transfers sampleEnv () behindState = (.ok ⟨[tr]⟩, behindState) ∧
      tr.confirmations = 18446744073709551611 ∧
      (tr.confirmations : Int) ≠ (5 : Int) - 10 ∧ tr.confirmations ≠ 5 - 10 :=
  ⟨_, rfl, rfl, by decide, by decide⟩

theorem sub64_of_le (C H : Nat) (hC : C < 2 ^ 64) (hH : H ≤ C) : sub64 C H = C - H := by
  unfold sub64 toUInt64
  omega

/-- C8, amended: when the node reports a block count `C` (a `uint64_t`), every
record that `on_get_transfers` projects and the record that
`on_get_transaction` projects, with block height `H`, has confirmations
`C - H` if `H` is not the unconfirmed sentinel and `H ≤ C`, and confirmations
`0` if `H` is the unconfirmed sentinel. -/
theorem transfer_confirmations (env : Env) (req : GetTransactionRequest) (s : State)
    (C : Nat) (hC : s.node.knownBlockCount = .ok C) (hC64 : C < 2 ^ 64) :
    (∃ out, on_get_transfers env () s = (.ok ⟨out⟩, s) ∧
        List.Forall₂
          (fun t tr =>
            (t.blockHeight ≠ WALLET_LEGACY_UNCONFIRMED_TRANSACTION_HEIGHT → t.blockHeight ≤ C →
              tr.confirmations = C - t.blockHeight) ∧
            (t.blockHeight = WALLET_LEGACY_UNCONFIRMED_TRANSACTION_HEIGHT →
              tr.confirmations = 0))
          (s.wallet.transactions.filter fun t => !skipped t) out) ∧
      ∀ t, s.wallet.transactions.find? (isRequested env req.tx_hash) = some t →
        ∃ res, on_get_transaction env req s = (.ok res, s) ∧
          (t.blockHeight ≠ WALLET_LEGACY_UNCONFIRMED_TRANSACTION_HEIGHT → t.blockHeight ≤ C →
            res.transaction_details.confirmations = C - t.blockHeight) ∧
          (t.blockHeight = WALLET_LEGACY_UNCONFIRMED_TRANSACTION_HEIGHT →
            res.transaction_details.confirmations = 0) := by
  have key : ∀ t : WalletLegacyTransaction,
      (t.blockHeight ≠ WALLET_LEGACY_UNCONFIRMED_TRANSACTION_HEIGHT → t.blockHeight ≤ C →
        (transferOf env s.wallet C t).confirmations = C - t.blockHeight) ∧
      (t.blockHeight = WALLET_LEGACY_UNCONFIRMED_TRANSACTION_HEIGHT →
        (transferOf env s.wallet C t).confirmations = 0) := by
    intro t
    constructor
    · intro hne hle
      have hne1 : t.blockHeight ≠ UNCONFIRMED_TRANSACTION_GLOBAL_OUTPUT_INDEX := hne
      simp only [transferOf, hne1, ne_eq, not_false_eq_true, ↓reduceIte]
      exact sub64_of_le C _ hC64 hle
    · intro he
      have he1 : t.blockHeight = UNCONFIRMED_TRANSACTION_GLOBAL_OUTPUT_INDEX := he
      simp [transferOf, he1]
  constructor
  · refine ⟨_, on_get_transfers_eq env s C hC, ?_⟩
    rw [List.forall₂_map_right_iff, List.forall₂_same]
    intro t _
    exact key t
  · intro t ht
    exact ⟨_, by rw [on_get_transaction_eq env req s C hC, ht], key t⟩

theorem transfer_confirmations_witness :
    (∃ out, on_get_transfers sampleEnv () historyState = (.ok ⟨out⟩, historyState) ∧
        List.Forall₂
          (fun t tr =>
            (t.blockHeight ≠ WALLET_LEGACY_UNCONFIRMED_TRANSACTION_HEIGHT → t.blockHeight ≤ 6 →
              tr.confirmations = 6 - t.blockHeight) ∧
            (t.blockHeight = WALLET_LEGACY_UNCONFIRMED_TRANSACTION_HEIGHT →
              tr.confirmations = 0))
          (historyState.wallet.transactions.filter fun t => !skipped t) out) ∧
      ∀ t, historyState.wallet.transactions.find? (isRequested sampleEnv sampleLookup.tx_hash) =
          some t →
        ∃ res, on_get_transaction sampleEnv sampleLookup historyState = (.ok res, historyState) ∧
          (t.blockHeight ≠ WALLET_LEGACY_UNCONFIRMED_TRANSACTION_HEIGHT → t.blockHeight ≤ 6 →
            res.transaction_details.confirmations = 6 - t.blockHeight) ∧
          (t.blockHeight = WALLET_LEGACY_UNCONFIRMED_TRANSACTION_HEIGHT →
            res.transaction_details.confirmations = 0) :=
  transfer_confirmations sampleEnv sampleLookup historyState 6 rfl (by decide)

/-! ### Lookup by hash -/

theorem destinationsOf_eq (env : Env) (w : Wallet) (t : WalletLegacyTransaction)
    (hfirst : t.firstTransferId < 2 ^ 64) (hlen : w.transfers.length < 2 ^ 64)
    (hexist : t.transferCount = 0 ∨ t.firstTransferId + t.transferCount ≤ w.transfers.length) :
    destinationsOf env w t =
      ((w.transfers.drop t.firstTransferId).take t.transferCount).map fun tr =>
        ⟨toUInt64 tr.amount, tr.address⟩ := by
  have hsum : t.firstTransferId + t.transferCount < 2 ^ 64 := by
    rcases hexist with h | h <;> omega
  have hlast : addSize t.firstTransferId t.transferCount - t.firstTransferId =
      t.transferCount := by
    unfold addSize
    rw [Nat.mod_eq_of_lt hsum]
    omega
  simp only [destinationsOf, hlast]
  apply List.ext_getElem?
  intro i
  by_cases hi : i < t.transferCount
  · have hin : t.firstTransferId + i < w.transfers.length := by
      rcases hexist with h | h <;> omega
    simp [List.getElem?_range', List.getElem?_take, List.getElem?_drop, hi,
      Wallet.getTransfer, List.getElem?_eq_getElem hin]
  · have hle : t.transferCount ≤ i := Nat.le_of_not_lt hi
    simp [List.getElem?_range', List.getElem?_take, hi, hle]

theorem isRequested_iff (env : Env) (tx_hash : String) (t : WalletLegacyTransaction) :
    isRequested env tx_hash t = true ↔
      (t.state ≠ .Cancelled ∧ t.state ≠ .Deleted ∧ t.state ≠ .Failed) ∧
        iequals (env.podToHex t.hash) tx_hash = true := by
  simp [isRequested, skipped, not_or]

/-- C9, as stated, fails: when the node cannot report its block count,
`on_get_transaction` raises "Failed to get blockchain height: ..." before it
scans the records.  With no record matching the requested hash `00` the error
is not the `NotFound` one, and with a record matching the requested hash
`AB..AB` no details are returned. -/
theorem on_get_transaction_node_down :
    (¬ ∃ t ∈ nodeDownState.wallet.transactions,
        (t.state ≠ .Cancelled ∧ t.state ≠ .Deleted ∧ t.state ≠ .Failed) ∧
          iequals (sampleEnv.podToHex t.hash) "00" = true) ∧
      (on_get_transaction sampleEnv ⟨"00"⟩ nodeDownState).1 =
        .error (.jsonRpc (.withMessage .WALLET_RPC_ERROR_CODE_UNKNOWN_ERROR
          "Failed to get blockchain height: node down")) ∧
      Exn.jsonRpc (.withMessage .WALLET_RPC_ERROR_CODE_UNKNOWN_ERROR
          "Failed to get blockchain height: node down") ≠
        .jsonRpc (.withMessage .WALLET_RPC_ERROR_CODE_UNKNOWN_ERROR
          ("Transaction with this hash not found: " ++ "00")) ∧
      (∃ t ∈ nodeDownState.wallet.transactions,
        (t.state ≠ .Cancelled ∧ t.state ≠ .Deleted ∧ t.state ≠ .Failed) ∧
          iequals (sampleEnv.podToHex t.hash) sampleLookup.tx_hash = true) ∧
      (on_get_transaction sampleEnv sampleLookup nodeDownState).1 =
        .error (.jsonRpc (.withMessage .WALLET_RPC_ERROR_CODE_UNKNOWN_ERROR
          "Failed to get blockchain height: node down")) :=
  ⟨by decide, rfl, by decide, by decide, rfl⟩

/-- C9, amended: when the node reports a block count `C` and the transfer
records of every transaction record are held by the wallet (ids and counts
being `size_t` values), for every requested hash string `h`:
`on_get_transaction` raises the `NotFound` error, message
"Transaction with this hash not found: " followed by `h` (under the code
`WALLET_RPC_ERROR_CODE_UNKNOWN_ERROR`), if and only if no record whose state is
not `Cancelled`, `Deleted` or `Failed` has a hash hex equal to `h` up to letter
case; otherwise it returns, for the first such record in scan order, the
projection that `on_get_transfers` makes of it together with its
`transferCount` transfer records from `firstTransferId` on, in order. -/
theorem on_get_transaction_spec (env : Env) (h : String) (s : State) (C : Nat)
    (hC : s.node.knownBlockCount = .ok C)
    (hfirst : ∀ t ∈ s.wallet.transactions, t.firstTransferId < 2 ^ 64)
    (hlen : s.wallet.transfers.length < 2 ^ 64)
    (hexist : ∀ t ∈ s.wallet.transactions,
      t.transferCount = 0 ∨ t.firstTransferId + t.transferCount ≤ s.wallet.transfers.length) :
    (on_get_transaction env ⟨h⟩ s =
        (.error (.jsonRpc (.withMessage .WALLET_RPC_ERROR_CODE_UNKNOWN_ERROR
          ("Transaction with this hash not found: " ++ h))), s) ↔
      ¬ ∃ t ∈ s.wallet.transactions,
          (t.state ≠ .Cancelled ∧ t.state ≠ .Deleted ∧ t.state ≠ .Failed) ∧
            iequals (env.podToHex t.hash) h = true) ∧
      ((∃ t ∈ s.wallet.transactions,
          (t.state ≠ .Cancelled ∧ t.state ≠ .Deleted ∧ t.state ≠ .Failed) ∧
            iequals (env.podToHex t.hash) h = true) →
        ∃ first t rest, s.wallet.transactions = first ++ t :: rest ∧
          (∀ u ∈ first, ¬ ((u.state ≠ .Cancelled ∧ u.state ≠ .Deleted ∧ u.state ≠ .Failed) ∧
            iequals (env.podToHex u.hash) h = true)) ∧
          ((t.state ≠ .Cancelled ∧ t.state ≠ .Deleted ∧ t.state ≠ .Failed) ∧
            iequals (env.podToHex t.hash) h = true) ∧
          on_get_transaction env ⟨h⟩ s =
            (.ok { transaction_details := transferOf env s.wallet C t
                   destinations :=
                     ((s.wallet.transfers.drop t.firstTransferId).take t.transferCount).map
                       fun tr => ⟨toUInt64 tr.amount, tr.address⟩ }, s)) := by
  have heq := on_get_transaction_eq env ⟨h⟩ s C hC
  simp only at heq
  cases hf : s.wallet.transactions.find? (isRequested env h) with
  | none =>
    rw [hf] at heq
    have hnone : ¬ ∃ t ∈ s.wallet.transactions,
        (t.state ≠ .Cancelled ∧ t.state ≠ .Deleted ∧ t.state ≠ .Failed) ∧
          iequals (env.podToHex t.hash) h = true := by
      rintro ⟨t, ht, hp⟩
      have := List.find?_eq_none.mp hf t ht
      exact this ((isRequested_iff env h t).mpr hp)
    exact ⟨⟨fun _ => hnone, fun _ => heq⟩, fun hex => absurd hex hnone⟩
  | some t =>
    rw [hf] at heq
    have hmem := List.mem_of_find?_eq_some hf
    have hp := (isRequested_iff env h t).mp (List.find?_some hf)
    constructor
    · constructor
      · intro herr
        rw [heq] at herr
        simp at herr
      · intro hno
        exact absurd ⟨t, hmem, hp⟩ hno
    · intro _
      obtain ⟨_, first, rest, hsplit, hfirst1⟩ := List.find?_eq_some.mp hf
      refine ⟨first, t, rest, hsplit, ?_, hp, ?_⟩
      · intro u hu hpu
        have := hfirst1 u hu
        rw [(isRequested_iff env h u).mpr hpu] at this
        simp at this
      · rw [heq]
        simp only
        rw [destinationsOf_eq _ _ _ (hfirst t hmem) hlen (hexist t hmem)]

theorem on_get_transaction_spec_witness :
    (on_get_transaction sampleEnv ⟨sampleLookup.tx_hash⟩ historyState =
        (.error (.jsonRpc (.withMessage .WALLET_RPC_ERROR_CODE_UNKNOWN_ERROR
          ("Transaction with this hash not found: " ++ sampleLookup.tx_hash))), historyState) ↔
      ¬ ∃ t ∈ historyState.wallet.transactions,
          (t.state ≠ .Cancelled ∧ t.state ≠ .Deleted ∧ t.state ≠ .Failed) ∧
            iequals (sampleEnv.podToHex t.hash) sampleLookup.tx_hash = true) ∧
      ((∃ t ∈ historyState.wallet.transactions,
          (t.state ≠ .Cancelled ∧ t.state ≠ .Deleted ∧ t.state ≠ .Failed) ∧
            iequals (sampleEnv.podToHex t.hash) sampleLookup.tx_hash = true) →
        ∃ first t rest, historyState.wallet.transactions = first ++ t :: rest ∧
          (∀ u ∈ first, ¬ ((u.state ≠ .Cancelled ∧ u.state ≠ .Deleted ∧ u.state ≠ .Failed) ∧
            iequals (sampleEnv.podToHex u.hash) sampleLookup.tx_hash = true)) ∧
          ((t.state ≠ .Cancelled ∧ t.state ≠ .Deleted ∧ t.state ≠ .Failed) ∧
            iequals (sampleEnv.podToHex t.hash) sampleLookup.tx_hash = true) ∧
          on_get_transaction sampleEnv ⟨sampleLookup.tx_hash⟩ historyState =
            (.ok { transaction_details := transferOf sampleEnv historyState.wallet 6 t
                   destinations :=
                     ((historyState.wallet.transfers.drop t.firstTransferId).take
                         t.transferCount).map
                       fun tr => ⟨toUInt64 tr.amount, tr.address⟩ }, historyState)) :=
  on_get_transaction_spec sampleEnv sampleLookup.tx_hash historyState 6 rfl (by decide)
    (by decide) (by decide)

/-! ### Stop -/

/-- C10: when persisting the wallet fails (`storeWallet` raises an exception),
`on_stop_wallet` raises the `PersistFailed` error, message
"Couldn't save wallet: " followed by the text of the exception (under the code
`WALLET_RPC_ERROR_CODE_UNKNOWN_ERROR`), and the only command issued is the
persist: `send_stop_signal` is not scheduled.  When `storeWallet` returns,
`on_stop_wallet` succeeds and the commands issued are the persist followed by
one scheduling of the stop signal. -/
theorem on_stop_wallet_spec (env : Env) (s : State) :
    (∀ what, env.storeWallet s.wallet env.walletFilename = .error what →
        on_stop_wallet env () s =
          (.error (.jsonRpc (.withMessage .WALLET_RPC_ERROR_CODE_UNKNOWN_ERROR
            ("Couldn't save wallet: " ++ what))),
            { s with trace := s.trace ++ [.storeWallet env.walletFilename] }) ∧
        Call.remoteSpawnStop ∉ ((on_stop_wallet env () s).2.trace.drop s.trace.length)) ∧
      (∀ stored, env.storeWallet s.wallet env.walletFilename = .ok stored →
        on_stop_wallet env () s =
          (.ok (), { s with trace := s.trace ++
            [.storeWallet env.walletFilename, .remoteSpawnStop] })) := by
  constructor
  · intro what hw
    have h : on_stop_wallet env () s =
        (.error (.jsonRpc (.withMessage .WALLET_RPC_ERROR_CODE_UNKNOWN_ERROR
          ("Couldn't save wallet: " ++ what))),
          { s with trace := s.trace ++ [.storeWallet env.walletFilename] }) := by
      simp [on_stop_wallet, State.log, hw, raise]
    refine ⟨h, ?_⟩
    rw [h]
    simp
  · intro stored hw
    simp [on_stop_wallet, State.log, hw, send_stop_signal]

theorem on_stop_wallet_spec_witness :
    on_stop_wallet failingStoreEnv () sampleState =
        (.error (.jsonRpc (.withMessage .WALLET_RPC_ERROR_CODE_UNKNOWN_ERROR
          "Couldn't save wallet: disk full")),
          { sampleState with trace := [.storeWallet "wallet.bin"] }) ∧
      on_stop_wallet sampleEnv () sampleState =
        (.ok (), { sampleState with trace := [.storeWallet "wallet.bin", .remoteSpawnStop] }) :=
  ⟨((on_stop_wallet_spec failingStoreEnv sampleState).1 "disk full" rfl).1,
    (on_stop_wallet_spec sampleEnv sampleState).2 true rfl⟩

end Tools
